import Mathlib

/-!
Shallow embedding of `src/Banco.py`, a small retail-banking ledger with
clients, accounts (base `Conta`, checking `Corrente`, savings `Poupanca`)
and a `Banco` orchestrating deposits, withdrawals and transfers.

Modelling conventions:
* Python `float` currency amounts and rates are modelled as `ℚ`.
* `datetime.date` / `datetime.datetime` values are modelled as `ℤ`; the
  ambient `datetime.date.today()` / `datetime.datetime.now()` calls become
  explicit `today` / `now` parameters threaded through the operations.
* Python object mutation is modelled by explicit state passing.  Account
  objects live in a heap `List Conta`; a Python reference to an account is
  an index into that heap, and the `Banco.contas` registry is a list of
  such indices (`conta in self.contas` becomes index membership).  Bank
  operations return the post-call heap together with the raised exception,
  if any, since a Python `raise` does not roll back mutations already made.
* Python is dynamically typed: the source passes either `TipoOperacao`
  members or raw strings as the `tipo` of an `Operacao`, and either a
  `Conta` or a string to `NonCountError.__init__`; both argument positions
  are therefore modelled as sum types.
* The `isinstance`-based dispatch of the source is modelled by a `kind`
  tag on `Conta` (`base`, `corrente`, `poupanca`).
-/

/-- Members of the `TipoOperacao` enum (`Banco.py` lines 115-119). -/
inductive TipoOperacao where
  | DEPOSITO
  | SAQUE
  | TRANSFERENCIA_DEBITO
  | TRANSFERENCIA_CREDITO
deriving DecidableEq, Repr

/-- Value actually stored in the `tipo` field of an `Operacao`: the source
is dynamically typed and its call sites pass either a `TipoOperacao` member
(`Banco.saque`, line 168) or a raw string (`Banco.deposito` line 157,
`Banco.transferencia` lines 149-150). -/
inductive TipoVal where
  | enum (t : TipoOperacao)
  | str (s : String)
deriving DecidableEq, Repr

/-- The `Operacao` dataclass (`Banco.py` lines 121-125): `tipo`, `valor`,
and the `dia` timestamp (defaulted from `datetime.datetime.now()`, passed
here explicitly as the `now` argument of the bank operations). -/
structure Operacao where
  tipo : TipoVal
  valor : ℚ
  dia : ℤ
deriving DecidableEq, Repr

/-- Runtime class tag of an account object: plain `Conta`, `Corrente`
(checking) or `Poupanca` (savings); stands for the `isinstance` checks of
the source. -/
inductive ContaKind where
  | base
  | corrente
  | poupanca
deriving DecidableEq, Repr

/-- The `Conta` dataclass (`Banco.py` lines 53-61) together with the
class-level fields of its two subclasses: `limite_cheque_especial`
(`Corrente`, line 96, meaningful only when `kind = corrente`) and
`taxa_rendimento` (`Poupanca`, line 110, meaningful only when
`kind = poupanca`).  `titular` is a reference to the owning client,
modelled as a bare identifier. -/
structure Conta where
  titular : Nat
  saldo : ℚ
  numero : String
  saques_diarios : Nat
  limite_saques_diarios : Nat
  operacoes : List Operacao
  ultima_atualizacao : ℤ
  kind : ContaKind
  limite_cheque_especial : ℚ
  taxa_rendimento : ℚ
deriving DecidableEq, Repr

/-- Constructing a plain `Conta(titular, saldo, numero)`: the dataclass
defaults give `saques_diarios = 0`, `limite_saques_diarios = 20`, an empty
`operacoes` list and `ultima_atualizacao = date.today()` (lines 58-61). -/
def Conta.mkBase (titular : Nat) (saldo : ℚ) (numero : String) (today : ℤ) : Conta :=
  { titular := titular
    saldo := saldo
    numero := numero
    saques_diarios := 0
    limite_saques_diarios := 20
    operacoes := []
    ultima_atualizacao := today
    kind := .base
    limite_cheque_especial := 5000
    taxa_rendimento := mkRat 1 1000 }

/-- `Corrente.__init__` (lines 92-96): delegates to the base constructor;
the class carries `limite_cheque_especial = 5000.0`. -/
def Corrente.mk (titular : Nat) (saldo : ℚ) (numero : String) (today : ℤ) : Conta :=
  { Conta.mkBase titular saldo numero today with kind := .corrente }

/-- `Poupanca.__init__` (lines 106-110): delegates to the base constructor;
the class carries `taxa_rendimento = 0.001`. -/
def Poupanca.mk (titular : Nat) (saldo : ℚ) (numero : String) (today : ℤ) : Conta :=
  { Conta.mkBase titular saldo numero today with kind := .poupanca }

/-- `Corrente.debitar_com_cheque_especial` (lines 98-103): fails when
`valor > limite_cheque_especial + saldo`; otherwise reduces the overdraft
limit by `valor - saldo` and sets the balance to exactly `0.0`.  Returns
the success flag together with the updated account. -/
def Conta.debitar_com_cheque_especial (c : Conta) (valor : ℚ) : Bool × Conta :=
  if valor > c.limite_cheque_especial + c.saldo then
    (false, c)
  else
    (true, { c with
      limite_cheque_especial := c.limite_cheque_especial - (valor - c.saldo)
      saldo := 0 })

/-- `Conta.debitar` (lines 63-69): on `valor > saldo` a `Corrente`
delegates to the overdraft path, any other account fails; otherwise the
balance is decreased by `valor`. -/
def Conta.debitar (c : Conta) (valor : ℚ) : Bool × Conta :=
  if valor > c.saldo ∧ c.kind = .corrente then
    c.debitar_com_cheque_especial valor
  else if valor > c.saldo then
    (false, c)
  else
    (true, { c with saldo := c.saldo - valor })

/-- `Conta.creditar` (lines 71-72): unconditionally adds `valor` to the
balance. -/
def Conta.creditar (c : Conta) (valor : ℚ) : Conta :=
  { c with saldo := c.saldo + valor }

/-- `Conta.historico` (lines 74-75): returns the operation list. -/
def Conta.historico (c : Conta) : List Operacao :=
  c.operacoes

/-- `Conta.verificar_reset` (lines 77-82): when the current date differs
from `ultima_atualizacao`, zero `saques_diarios` and stamp today. -/
def Conta.verificar_reset (c : Conta) (today : ℤ) : Conta :=
  if today ≠ c.ultima_atualizacao then
    { c with saques_diarios := 0, ultima_atualizacao := today }
  else
    c

/-- `Conta.limite_saque` (lines 85-89): first runs `verificar_reset`
(a mutation that persists even if the caller then raises), then a
`Poupanca` answers `saques_diarios < limite_saques_diarios` and every
other account answers `True`. -/
def Conta.limite_saque (c : Conta) (today : ℤ) : Bool × Conta :=
  let c := c.verificar_reset today
  if c.kind = .poupanca then
    (c.saques_diarios < c.limite_saques_diarios, c)
  else
    (true, c)

/-- `Poupanca.aplicar_rendimentos` (lines 112-113): multiplies the balance
by `1 + taxa_rendimento`. -/
def Conta.aplicar_rendimentos (c : Conta) : Conta :=
  { c with saldo := c.saldo * (1 + c.taxa_rendimento) }

/-- Exceptions the bank operations can raise.  `BankError`,
`NonClientError` and `NonCountError` form the hierarchy of lines 6-18;
`OperationError` (lines 20-22) is a separate root; `AttributeError` is the
Python runtime error raised when an attribute access fails. -/
inductive BankExc where
  | BankError (msg : String)
  | NonClientError (msg : String)
  | NonCountError (msg : String)
  | OperationError (msg : String)
  | AttributeError (msg : String)
deriving DecidableEq, Repr

/-- Dynamically typed argument of `NonCountError.__init__`: the annotation
says `Conta`, but every call site in the source (`Banco.py` lines 143,
145, 156, 162) passes `conta.numero`, a string. -/
inductive PyContaVal where
  | conta (c : Conta)
  | str (s : String)
deriving DecidableEq, Repr

/-- Evaluating `NonCountError(arg)` (lines 15-18): the constructor body
reads `arg.numero` to build its message, so it produces a `NonCountError`
when handed an actual `Conta` and raises `AttributeError` when handed a
string, which is what every call site in the source passes. -/
def mkNonCountError : PyContaVal → BankExc
  | .conta c => .NonCountError ("A conta " ++ c.numero ++ " nao existe")
  | .str _ => .AttributeError "str object has no attribute numero"

example : (Conta.debitar (Corrente.mk 0 10 "1" 0) 20).1 = true := by
  norm_num [Conta.debitar, Conta.debitar_com_cheque_especial, Corrente.mk, Conta.mkBase]
example : ((Conta.debitar (Corrente.mk 0 10 "1" 0) 20).2).saldo = 0 := by
  norm_num [Conta.debitar, Conta.debitar_com_cheque_especial, Corrente.mk, Conta.mkBase]
example :
    ((Conta.debitar (Corrente.mk 0 10 "1" 0) 20).2).limite_cheque_especial = 4990 := by
  norm_num [Conta.debitar, Conta.debitar_com_cheque_especial, Corrente.mk, Conta.mkBase]
example : (Conta.debitar (Poupanca.mk 0 10 "1" 0) 20).1 = false := by
  norm_num [Conta.debitar, Poupanca.mk, Conta.mkBase]
  decide

/-- Heap of account objects: a Python reference to a `Conta` is an index
into this list, and mutating the object is `List.set` at that index. -/
abbrev Heap := List Conta

/-- Mutation of the account object a reference points at: `modifyRef σ i f`
replaces the object at index `i` by `f` of it (a reference handed to a
bank operation is always valid, so the out-of-range case never arises in
the modelled runs). -/
def modifyRef (σ : Heap) (i : Nat) (f : Conta → Conta) : Heap :=
  match σ[i]? with
  | some c => σ.set i (f c)
  | none => σ

/-- The `Banco` dataclass (`Banco.py` lines 127-130): registries of client
references and account references.  Only the account registry is relevant
to the modelled operations. -/
structure Banco where
  clientes : List Nat
  contas : List Nat
deriving DecidableEq, Repr

/-- Membership test `conta in self.contas`: the reference `i` is among the
registered account references. -/
def Banco.registrada (bk : Banco) (i : Nat) : Bool :=
  bk.contas.contains i

/-- Outcome of a bank operation: the post-call heap together with the
exception raised, if any.  A Python `raise` does not undo mutations made
before it, so the heap is returned on both outcomes. -/
abbrev BancoResult := Heap × Option BankExc

/-- `Banco.deposito` (`Banco.py` lines 154-158): raise if the account is
not registered (the `NonCountError(conta.numero)` call site, which hands
the constructor a string); otherwise append an `Operacao` whose `tipo` is
the raw string `"Deposito"`, then credit the account. -/
def Banco.deposito (bk : Banco) (σ : Heap) (i : Nat) (valor : ℚ) (now : ℤ) : BancoResult :=
  match σ[i]? with
  | none => (σ, some (.AttributeError "invalid reference"))
  | some c =>
    if ¬ bk.registrada i then
      (σ, some (mkNonCountError (.str c.numero)))
    else
      let c := { c with operacoes := c.operacoes ++ [Operacao.mk (.str "Deposito") valor now] }
      let c := c.creditar valor
      (σ.set i c, none)

/-- `Banco.saque` (`Banco.py` lines 160-171): raise if unregistered; run
`limite_saque` (whose `verificar_reset` mutation persists even when the
call then raises) and raise `OperationError` if it answers false; then
attempt the debit, on success appending an `Operacao` with
`TipoOperacao.SAQUE` and incrementing `saques_diarios`, on failure raising
`OperationError`. -/
def Banco.saque (bk : Banco) (σ : Heap) (i : Nat) (valor : ℚ) (today : ℤ) (now : ℤ) :
    BancoResult :=
  match σ[i]? with
  | none => (σ, some (.AttributeError "invalid reference"))
  | some c =>
    if ¬ bk.registrada i then
      (σ, some (mkNonCountError (.str c.numero)))
    else
      let r := c.limite_saque today
      if ¬ r.1 then
        (σ.set i r.2, some (.OperationError "Limite de saques diários atingido"))
      else
        let d := r.2.debitar valor
        if d.1 then
          let c := { d.2 with
            operacoes := d.2.operacoes ++ [Operacao.mk (.enum .SAQUE) valor now]
            saques_diarios := d.2.saques_diarios + 1 }
          (σ.set i c, none)
        else
          (σ.set i d.2, some (.OperationError "Saldo insuficiente ou outra falha na operação"))

/-- `Banco.transferencia` (`Banco.py` lines 141-152): raise if either side
is unregistered (checking `conta1` first); attempt the debit on `conta1`;
on success credit `conta2`, then append to `conta1.operacoes` an
`Operacao` whose `tipo` is the raw string `"Transferencia - Debito"` and
to `conta2.operacoes` one with the raw string `"Transferencia - Credito"`;
on debit failure raise `OperationError`.  The successive mutations go
through the references, so aliasing (`i = j`) behaves as in Python. -/
def Banco.transferencia (bk : Banco) (σ : Heap) (i j : Nat) (valor : ℚ) (now : ℤ) :
    BancoResult :=
  match σ[i]? with
  | none => (σ, some (.AttributeError "invalid reference"))
  | some c1 =>
    if ¬ bk.registrada i then
      (σ, some (mkNonCountError (.str c1.numero)))
    else
      match σ[j]? with
      | none => (σ, some (.AttributeError "invalid reference"))
      | some c2 =>
        if ¬ bk.registrada j then
          (σ, some (mkNonCountError (.str c2.numero)))
        else
          let d := c1.debitar valor
          if d.1 then
            let σ := σ.set i d.2
            let σ := modifyRef σ j (fun c => c.creditar valor)
            let σ := modifyRef σ i (fun c =>
              { c with operacoes := c.operacoes ++ [Operacao.mk (.str "Transferencia - Debito") valor now] })
            let σ := modifyRef σ j (fun c =>
              { c with operacoes := c.operacoes ++ [Operacao.mk (.str "Transferencia - Credito") valor now] })
            (σ, none)
          else
            (σ, some (.OperationError "Saldo insuficiente ou outra falha na operação"))

/-! ### Helper lemmas about the embedded operations -/

theorem modifyRef_getElem?_self {σ : Heap} {i : Nat} {c : Conta} (f : Conta → Conta)
    (h : σ[i]? = some c) : (modifyRef σ i f)[i]? = some (f c) := by
  unfold modifyRef
  rw [h]
  exact List.getElem?_set_self (List.getElem?_eq_some_iff.mp h).1

theorem modifyRef_getElem?_ne {σ : Heap} {i j : Nat} (f : Conta → Conta) (h : i ≠ j) :
    (modifyRef σ i f)[j]? = σ[j]? := by
  unfold modifyRef
  cases hc : σ[i]? with
  | none => rfl
  | some c => exact List.getElem?_set_ne h

theorem Conta.debitar_kind (c : Conta) (v : ℚ) : (c.debitar v).2.kind = c.kind := by
  unfold Conta.debitar Conta.debitar_com_cheque_especial
  split
  · split <;> rfl
  · split <;> rfl

theorem Conta.debitar_le_saldo {c : Conta} {v : ℚ} (h : v ≤ c.saldo) :
    c.debitar v = (true, { c with saldo := c.saldo - v }) := by
  unfold Conta.debitar
  rw [if_neg (fun hh => absurd hh.1 (not_lt.mpr h)), if_neg (not_lt.mpr h)]

theorem Conta.debitar_overdraft_success {c : Conta} {v : ℚ} (hk : c.kind = .corrente)
    (h1 : c.saldo < v) (h2 : v ≤ c.limite_cheque_especial + c.saldo) :
    c.debitar v = (true, { c with
      limite_cheque_especial := c.limite_cheque_especial - (v - c.saldo)
      saldo := 0 }) := by
  unfold Conta.debitar Conta.debitar_com_cheque_especial
  rw [if_pos ⟨h1, hk⟩, if_neg (not_lt.mpr h2)]

theorem Conta.debitar_overdraft_fail {c : Conta} {v : ℚ} (hk : c.kind = .corrente)
    (h1 : c.saldo < v) (h2 : c.limite_cheque_especial + c.saldo < v) :
    c.debitar v = (false, c) := by
  unfold Conta.debitar Conta.debitar_com_cheque_especial
  rw [if_pos ⟨h1, hk⟩, if_pos h2]

theorem Conta.debitar_fail_nao_corrente {c : Conta} {v : ℚ} (hk : c.kind ≠ .corrente)
    (h1 : c.saldo < v) : c.debitar v = (false, c) := by
  unfold Conta.debitar
  rw [if_neg (fun hh => hk hh.2), if_pos h1]

theorem Conta.verificar_reset_of_ne {c : Conta} {today : ℤ}
    (h : today ≠ c.ultima_atualizacao) :
    c.verificar_reset today = { c with saques_diarios := 0, ultima_atualizacao := today } := by
  unfold Conta.verificar_reset
  rw [if_pos h]

theorem Conta.verificar_reset_of_eq {c : Conta} {today : ℤ}
    (h : today = c.ultima_atualizacao) : c.verificar_reset today = c := by
  unfold Conta.verificar_reset
  rw [if_neg (not_not_intro h)]

theorem Conta.verificar_reset_kind (c : Conta) (today : ℤ) :
    (c.verificar_reset today).kind = c.kind := by
  unfold Conta.verificar_reset
  split <;> rfl

theorem Conta.verificar_reset_saldo (c : Conta) (today : ℤ) :
    (c.verificar_reset today).saldo = c.saldo := by
  unfold Conta.verificar_reset
  split <;> rfl

theorem Conta.verificar_reset_limite (c : Conta) (today : ℤ) :
    (c.verificar_reset today).limite_cheque_especial = c.limite_cheque_especial := by
  unfold Conta.verificar_reset
  split <;> rfl

theorem Conta.verificar_reset_operacoes (c : Conta) (today : ℤ) :
    (c.verificar_reset today).operacoes = c.operacoes := by
  unfold Conta.verificar_reset
  split <;> rfl

theorem Conta.verificar_reset_limite_saques (c : Conta) (today : ℤ) :
    (c.verificar_reset today).limite_saques_diarios = c.limite_saques_diarios := by
  unfold Conta.verificar_reset
  split <;> rfl

theorem Conta.limite_saque_snd (c : Conta) (today : ℤ) :
    (c.limite_saque today).2 = c.verificar_reset today := by
  simp only [Conta.limite_saque]
  split <;> rfl

theorem Conta.limite_saque_fst_nao_poupanca {c : Conta} (today : ℤ)
    (h : c.kind ≠ .poupanca) : (c.limite_saque today).1 = true := by
  simp only [Conta.limite_saque]
  rw [if_neg]
  rw [Conta.verificar_reset_kind]
  exact h

theorem Conta.limite_saque_fst_poupanca {c : Conta} (today : ℤ)
    (h : c.kind = .poupanca) :
    (c.limite_saque today).1 =
      decide ((c.verificar_reset today).saques_diarios < c.limite_saques_diarios) := by
  simp only [Conta.limite_saque]
  rw [if_pos]
  · rw [Conta.verificar_reset_limite_saques]
  · rw [Conta.verificar_reset_kind]
    exact h

/-! ### C10: constructor defaults -/

/-- C10: every newly constructed `Corrente` starts with overdraft limit
exactly `5000.0` and every newly constructed `Poupanca` with interest rate
exactly `0.001`; both variants start with daily withdrawal count `0`,
daily withdrawal limit `20` and an empty operation history, and take
`saldo`, `numero` and `titular` from the constructor arguments. -/
theorem C10_construtores (titular : Nat) (saldo : ℚ) (numero : String) (today : ℤ) :
    (Corrente.mk titular saldo numero today).limite_cheque_especial = 5000 ∧
    (Poupanca.mk titular saldo numero today).taxa_rendimento = 1/1000 ∧
    (Corrente.mk titular saldo numero today).saques_diarios = 0 ∧
    (Poupanca.mk titular saldo numero today).saques_diarios = 0 ∧
    (Corrente.mk titular saldo numero today).limite_saques_diarios = 20 ∧
    (Poupanca.mk titular saldo numero today).limite_saques_diarios = 20 ∧
    (Corrente.mk titular saldo numero today).operacoes = [] ∧
    (Poupanca.mk titular saldo numero today).operacoes = [] ∧
    (Corrente.mk titular saldo numero today).saldo = saldo ∧
    (Poupanca.mk titular saldo numero today).saldo = saldo ∧
    (Corrente.mk titular saldo numero today).numero = numero ∧
    (Poupanca.mk titular saldo numero today).numero = numero ∧
    (Corrente.mk titular saldo numero today).titular = titular ∧
    (Poupanca.mk titular saldo numero today).titular = titular := by
  norm_num [Corrente.mk, Poupanca.mk, Conta.mkBase]

/-! ### C3: overdraft withdrawal inside the limit -/

/-- C3: for a checking account with balance `b` and overdraft limit `o`,
debiting `v` with `b < v ≤ b + o` succeeds, leaves the balance exactly `0`
and the overdraft limit exactly `o - (v - b)`. -/
theorem C3_debito_cheque_especial (c : Conta) (v : ℚ) (hk : c.kind = .corrente)
    (h1 : c.saldo < v) (h2 : v ≤ c.saldo + c.limite_cheque_especial) :
    (c.debitar v).1 = true ∧ (c.debitar v).2.saldo = 0 ∧
    (c.debitar v).2.limite_cheque_especial =
      c.limite_cheque_especial - (v - c.saldo) := by
  rw [Conta.debitar_overdraft_success hk h1 (by linarith)]
  exact ⟨rfl, rfl, rfl⟩

/-- Witness for C3 at a concrete input: a fresh checking account with
balance `10` debited by `20`. -/
theorem C3_debito_cheque_especial_test :
    (Corrente.mk 0 10 "1" 0).saldo < 20 ∧
    ((Corrente.mk 0 10 "1" 0).debitar 20).1 = true ∧
    ((Corrente.mk 0 10 "1" 0).debitar 20).2.saldo = 0 ∧
    ((Corrente.mk 0 10 "1" 0).debitar 20).2.limite_cheque_especial =
      (Corrente.mk 0 10 "1" 0).limite_cheque_especial -
        (20 - (Corrente.mk 0 10 "1" 0).saldo) := by
  refine ⟨by norm_num [Corrente.mk, Conta.mkBase], ?_⟩
  exact C3_debito_cheque_especial (Corrente.mk 0 10 "1" 0) 20
    (by norm_num [Corrente.mk, Conta.mkBase])
    (by norm_num [Corrente.mk, Conta.mkBase])
    (by norm_num [Corrente.mk, Conta.mkBase])

/-! ### C8: deposito performs no validation -/

/-- C8: `Banco.deposito` validates nothing: for every registered account
and every amount `v`, negative amounts included, the call raises no
exception, appends exactly one deposit operation, and changes the balance
by exactly `v`. -/
theorem C8_deposito_sem_validacao (bk : Banco) (σ : Heap) (i : Nat) (c : Conta) (v : ℚ)
    (now : ℤ) (hc : σ[i]? = some c) (hr : bk.registrada i = true) :
    (bk.deposito σ i v now).2 = none ∧
    (bk.deposito σ i v now).1 = σ.set i { c with
      saldo := c.saldo + v
      operacoes := c.operacoes ++ [Operacao.mk (.str "Deposito") v now] } := by
  unfold Banco.deposito
  rw [hc]
  simp [hr, Conta.creditar]

/-- Witness for C8: a negative deposit of `-5` on a registered account is
accepted, logged, and decreases the balance. -/
theorem C8_deposito_sem_validacao_test :
    ((Banco.mk [] [0]).deposito [Corrente.mk 0 10 "1" 0] 0 (-5) 3).2 = none ∧
    ((Banco.mk [] [0]).deposito [Corrente.mk 0 10 "1" 0] 0 (-5) 3).1 =
      [Corrente.mk 0 10 "1" 0].set 0 { Corrente.mk 0 10 "1" 0 with
        saldo := (Corrente.mk 0 10 "1" 0).saldo + (-5)
        operacoes := (Corrente.mk 0 10 "1" 0).operacoes ++
          [Operacao.mk (.str "Deposito") (-5) 3] } :=
  C8_deposito_sem_validacao (Banco.mk [] [0]) [Corrente.mk 0 10 "1" 0] 0
    (Corrente.mk 0 10 "1" 0) (-5) 3 rfl rfl

/-! ### C7: type of logged operations -/

/-- C7 (refuted by the code): the operation record appended by
`Banco.deposito` carries the raw string `"Deposito"` as its `tipo` — not a
member of the `TipoOperacao` enum — contradicting the dataclass annotation
`tipo: TipoOperacao` of `Operacao`. -/
theorem C7_tipo_fora_do_enum (bk : Banco) (σ : Heap) (i : Nat) (c : Conta) (v : ℚ)
    (now : ℤ) (hc : σ[i]? = some c) (hr : bk.registrada i = true) :
    ∃ op : Operacao,
      (bk.deposito σ i v now).1 = σ.set i { c with
        saldo := c.saldo + v
        operacoes := c.operacoes ++ [op] } ∧
      op.tipo = .str "Deposito" ∧
      ∀ t : TipoOperacao, op.tipo ≠ .enum t := by
  refine ⟨Operacao.mk (.str "Deposito") v now, ?_, rfl, fun t => by simp⟩
  unfold Banco.deposito
  rw [hc]
  simp [hr, Conta.creditar]

/-- Witness for C7: the single operation logged by a concrete deposit has
a string `tipo` outside the enum. -/
theorem C7_tipo_fora_do_enum_test :
    ∃ op : Operacao,
      ((Banco.mk [] [0]).deposito [Corrente.mk 0 10 "1" 0] 0 5 3).1 =
        [Corrente.mk 0 10 "1" 0].set 0 { Corrente.mk 0 10 "1" 0 with
          saldo := (Corrente.mk 0 10 "1" 0).saldo + 5
          operacoes := (Corrente.mk 0 10 "1" 0).operacoes ++ [op] } ∧
      op.tipo = .str "Deposito" ∧
      ∀ t : TipoOperacao, op.tipo ≠ .enum t :=
  C7_tipo_fora_do_enum (Banco.mk [] [0]) [Corrente.mk 0 10 "1" 0] 0
    (Corrente.mk 0 10 "1" 0) 5 3 rfl rfl

/-! ### C4: withdrawal beyond balance plus overdraft -/

/-- C4: a `Banco.saque` of `v` exceeding balance plus overdraft limit on a
registered checking account raises `OperationError` and leaves both the
balance and the overdraft limit unchanged. -/
theorem C4_saque_acima_do_limite (bk : Banco) (σ : Heap) (i : Nat) (c : Conta) (v : ℚ)
    (today now : ℤ) (hc : σ[i]? = some c) (hr : bk.registrada i = true)
    (hk : c.kind = .corrente) (ho : 0 ≤ c.limite_cheque_especial)
    (hv : c.saldo + c.limite_cheque_especial < v) :
    (bk.saque σ i v today now).2 =
      some (.OperationError "Saldo insuficiente ou outra falha na operação") ∧
    ∃ c', (bk.saque σ i v today now).1 = σ.set i c' ∧
      c'.saldo = c.saldo ∧ c'.limite_cheque_especial = c.limite_cheque_especial := by
  have hk' : (c.verificar_reset today).kind = .corrente := by
    rw [Conta.verificar_reset_kind]; exact hk
  have hfst : (c.limite_saque today).1 = true :=
    Conta.limite_saque_fst_nao_poupanca today (by rw [hk]; simp)
  have hd : (c.verificar_reset today).debitar v = (false, c.verificar_reset today) :=
    Conta.debitar_overdraft_fail hk'
      (by rw [Conta.verificar_reset_saldo]; linarith)
      (by rw [Conta.verificar_reset_limite, Conta.verificar_reset_saldo]; linarith)
  unfold Banco.saque
  rw [hc]
  refine And.intro ?_ ?_
  · simp [hr, hfst, Conta.limite_saque_snd, hd]
  · refine ⟨c.verificar_reset today, ?_, Conta.verificar_reset_saldo c today,
      Conta.verificar_reset_limite c today⟩
    simp [hr, hfst, Conta.limite_saque_snd, hd]

/-- Witness for C4: withdrawing `6000` from a fresh checking account with
balance `10` and overdraft limit `5000` fails and changes neither. -/
theorem C4_saque_acima_do_limite_test :
    (((Banco.mk [] [0]).saque [Corrente.mk 0 10 "1" 0] 0 6000 0 3).2 =
      some (.OperationError "Saldo insuficiente ou outra falha na operação")) ∧
    ∃ c', ((Banco.mk [] [0]).saque [Corrente.mk 0 10 "1" 0] 0 6000 0 3).1 =
        [Corrente.mk 0 10 "1" 0].set 0 c' ∧
      c'.saldo = (Corrente.mk 0 10 "1" 0).saldo ∧
      c'.limite_cheque_especial = (Corrente.mk 0 10 "1" 0).limite_cheque_especial :=
  C4_saque_acima_do_limite (Banco.mk [] [0]) [Corrente.mk 0 10 "1" 0] 0
    (Corrente.mk 0 10 "1" 0) 6000 0 3 rfl rfl rfl
    (by norm_num [Corrente.mk, Conta.mkBase])
    (by norm_num [Corrente.mk, Conta.mkBase])

/-! ### C5: daily withdrawal limit on savings accounts -/

/-- C5: a savings account whose daily withdrawal count has reached the
daily limit on the current date has its next `Banco.saque` rejected with
`OperationError`; once the date differs from the account's last update,
the counter is reset to `0` and a withdrawal within the balance succeeds,
ending with one recorded withdrawal (count `0 + 1`) stamped on the new
date. -/
theorem C5_limite_diario (bk : Banco) (σ : Heap) (i : Nat) (c : Conta) (v : ℚ)
    (today now : ℤ) (hc : σ[i]? = some c) (hr : bk.registrada i = true)
    (hk : c.kind = .poupanca) :
    (today = c.ultima_atualizacao → c.limite_saques_diarios ≤ c.saques_diarios →
      (bk.saque σ i v today now).2 =
        some (.OperationError "Limite de saques diários atingido") ∧
      (bk.saque σ i v today now).1 = σ.set i c) ∧
    (today ≠ c.ultima_atualizacao → v ≤ c.saldo → 0 < c.limite_saques_diarios →
      (bk.saque σ i v today now).2 = none ∧
      (bk.saque σ i v today now).1 = σ.set i { c with
        saques_diarios := 1
        ultima_atualizacao := today
        saldo := c.saldo - v
        operacoes := c.operacoes ++ [Operacao.mk (.enum .SAQUE) v now] }) := by
  constructor
  · intro hdate hlim
    have hres : c.verificar_reset today = c := Conta.verificar_reset_of_eq hdate
    have hfst : (c.limite_saque today).1 = false := by
      rw [Conta.limite_saque_fst_poupanca today hk, hres]
      simpa using not_lt.mpr hlim
    have hsnd : (c.limite_saque today).2 = c := by
      rw [Conta.limite_saque_snd, hres]
    unfold Banco.saque
    rw [hc]
    constructor
    · simp [hr, hfst, hsnd]
    · simp [hr, hfst, hsnd]
  · intro hdate hle hpos
    have hres : c.verificar_reset today =
        { c with saques_diarios := 0, ultima_atualizacao := today } :=
      Conta.verificar_reset_of_ne hdate
    have hfst : (c.limite_saque today).1 = true := by
      rw [Conta.limite_saque_fst_poupanca today hk, hres]
      simpa using hpos
    have hsnd : (c.limite_saque today).2 =
        { c with saques_diarios := 0, ultima_atualizacao := today } := by
      rw [Conta.limite_saque_snd, hres]
    have hdeb : ({ c with saques_diarios := 0, ultima_atualizacao := today } : Conta).debitar v =
        (true, { c with
          saques_diarios := 0
          ultima_atualizacao := today
          saldo := c.saldo - v }) :=
      Conta.debitar_le_saldo hle
    unfold Banco.saque
    rw [hc]
    constructor
    · simp [hr, hfst, hsnd, hdeb]
    · simp [hr, hfst, hsnd, hdeb]

/-- Test fixture for C5: a savings account holding `100` whose daily
withdrawal counter already reached the default limit `20`, last updated on
date `0`. -/
def contaPoupancaCheia : Conta :=
  { Poupanca.mk 0 100 "p" 0 with saques_diarios := 20 }

/-- Witness for C5: on date `0` (same date) the 21st withdrawal attempt is
rejected; on date `1` the counter resets and the same withdrawal goes
through. -/
theorem C5_limite_diario_test :
    (((Banco.mk [] [0]).saque [contaPoupancaCheia] 0 30 0 3).2 =
      some (.OperationError "Limite de saques diários atingido")) ∧
    (((Banco.mk [] [0]).saque [contaPoupancaCheia] 0 30 1 3).2 = none) :=
  ⟨((C5_limite_diario (Banco.mk [] [0]) [contaPoupancaCheia] 0 contaPoupancaCheia
      30 0 3 rfl rfl rfl).1 rfl (by decide)).1,
   ((C5_limite_diario (Banco.mk [] [0]) [contaPoupancaCheia] 0 contaPoupancaCheia
      30 1 3 rfl rfl rfl).2 (by decide)
      (by norm_num [contaPoupancaCheia, Poupanca.mk, Conta.mkBase]) (by decide)).1⟩

/-! ### C9: a failed withdrawal still persists the daily reset -/

/-- C9: a `Banco.saque` rejected for insufficient funds leaves the balance
and the history unchanged, but when the current date differs from the
account's last update it still zeroes the daily counter and stamps today,
because `verificar_reset` runs before the debit attempt and its mutation
survives the raise. -/
theorem C9_saque_falho_persiste_reset (bk : Banco) (σ : Heap) (i : Nat) (c : Conta)
    (v : ℚ) (today now : ℤ) (hc : σ[i]? = some c) (hr : bk.registrada i = true)
    (hdate : today ≠ c.ultima_atualizacao) (hv : c.saldo < v)
    (hcor : c.kind = .corrente → c.limite_cheque_especial + c.saldo < v)
    (hpou : c.kind = .poupanca → 0 < c.limite_saques_diarios) :
    (bk.saque σ i v today now).2 =
      some (.OperationError "Saldo insuficiente ou outra falha na operação") ∧
    (bk.saque σ i v today now).1 = σ.set i { c with
      saques_diarios := 0
      ultima_atualizacao := today } := by
  have hres : c.verificar_reset today =
      { c with saques_diarios := 0, ultima_atualizacao := today } :=
    Conta.verificar_reset_of_ne hdate
  have hfst : (c.limite_saque today).1 = true := by
    rcases hkind : c.kind with _ | _ | _
    · exact Conta.limite_saque_fst_nao_poupanca today (by simp [hkind])
    · exact Conta.limite_saque_fst_nao_poupanca today (by simp [hkind])
    · rw [Conta.limite_saque_fst_poupanca today hkind, hres]
      simpa using hpou hkind
  have hsnd : (c.limite_saque today).2 =
      { c with saques_diarios := 0, ultima_atualizacao := today } := by
    rw [Conta.limite_saque_snd, hres]
  have hdeb : ({ c with saques_diarios := 0, ultima_atualizacao := today } : Conta).debitar v =
      (false, { c with saques_diarios := 0, ultima_atualizacao := today }) := by
    rcases hkind : c.kind with _ | _ | _
    · exact Conta.debitar_fail_nao_corrente (by simp) hv
    · exact Conta.debitar_overdraft_fail (by simp) hv (hcor hkind)
    · exact Conta.debitar_fail_nao_corrente (by simp) hv
  unfold Banco.saque
  rw [hc]
  constructor
  · simp [hr, hfst, hsnd, hdeb]
  · simp [hr, hfst, hsnd, hdeb]

/-- Test fixture for C9: a savings account holding `10`, with a nonzero
daily counter, last updated on date `0`. -/
def contaPoupancaComContador : Conta :=
  { Poupanca.mk 0 10 "p" 0 with saques_diarios := 7 }

/-- Witness for C9: on date `1`, withdrawing `50` from the fixture account
holding `10` is rejected, yet the counter is reset to `0` and the date
stamped. -/
theorem C9_saque_falho_persiste_reset_test :
    (((Banco.mk [] [0]).saque [contaPoupancaComContador] 0 50 1 3).2 =
      some (.OperationError "Saldo insuficiente ou outra falha na operação")) ∧
    ((Banco.mk [] [0]).saque [contaPoupancaComContador] 0 50 1 3).1 =
      [contaPoupancaComContador].set 0 { contaPoupancaComContador with
        saques_diarios := 0
        ultima_atualizacao := 1 } :=
  C9_saque_falho_persiste_reset (Banco.mk [] [0]) [contaPoupancaComContador] 0
    contaPoupancaComContador 50 1 3 rfl rfl (by decide)
    (by norm_num [contaPoupancaComContador, Poupanca.mk, Conta.mkBase])
    (by intro h; simp [contaPoupancaComContador, Poupanca.mk, Conta.mkBase] at h)
    (by intro _; decide)

/-! ### C2: operating on an unregistered account -/

/-- C2 (divergence from the claim): `Banco.deposito`, `Banco.saque` and
`Banco.transferencia` (on either side) do fail on an unregistered account
and leave the heap — hence every balance and history — unchanged, but the
exception actually raised is `AttributeError`, produced inside
`NonCountError.__init__` when it evaluates `conta.numero` on the string
the call sites pass, not `NonCountError` itself. -/
theorem C2_conta_nao_registrada (bk : Banco) (σ : Heap) (i j : Nat) (ci cj : Conta)
    (v : ℚ) (today now : ℤ) (hci : σ[i]? = some ci) (hri : bk.registrada i = false)
    (hcj : σ[j]? = some cj) (hrj : bk.registrada j = true) :
    bk.deposito σ i v now =
      (σ, some (.AttributeError "str object has no attribute numero")) ∧
    bk.saque σ i v today now =
      (σ, some (.AttributeError "str object has no attribute numero")) ∧
    bk.transferencia σ i j v now =
      (σ, some (.AttributeError "str object has no attribute numero")) ∧
    bk.transferencia σ j i v now =
      (σ, some (.AttributeError "str object has no attribute numero")) := by
  refine ⟨?_, ?_, ?_, ?_⟩
  · unfold Banco.deposito
    rw [hci]
    simp [hri, mkNonCountError]
  · unfold Banco.saque
    rw [hci]
    simp [hri, mkNonCountError]
  · unfold Banco.transferencia
    rw [hci]
    simp [hri, mkNonCountError]
  · unfold Banco.transferencia
    rw [hcj]
    rw [hci]
    simp [hri, hrj, mkNonCountError]

/-- Witness for C2: a bank registering only account reference `1` rejects
every operation that touches the unregistered reference `0`, leaving the
heap unchanged. -/
theorem C2_conta_nao_registrada_test :
    ((Banco.mk [] [1]).deposito [Corrente.mk 0 10 "1" 0, Poupanca.mk 1 50 "2" 0] 0 5 3 =
      ([Corrente.mk 0 10 "1" 0, Poupanca.mk 1 50 "2" 0],
        some (.AttributeError "str object has no attribute numero"))) ∧
    ((Banco.mk [] [1]).saque [Corrente.mk 0 10 "1" 0, Poupanca.mk 1 50 "2" 0] 0 5 0 3 =
      ([Corrente.mk 0 10 "1" 0, Poupanca.mk 1 50 "2" 0],
        some (.AttributeError "str object has no attribute numero"))) ∧
    ((Banco.mk [] [1]).transferencia [Corrente.mk 0 10 "1" 0, Poupanca.mk 1 50 "2" 0] 0 1 5 3 =
      ([Corrente.mk 0 10 "1" 0, Poupanca.mk 1 50 "2" 0],
        some (.AttributeError "str object has no attribute numero"))) ∧
    ((Banco.mk [] [1]).transferencia [Corrente.mk 0 10 "1" 0, Poupanca.mk 1 50 "2" 0] 1 0 5 3 =
      ([Corrente.mk 0 10 "1" 0, Poupanca.mk 1 50 "2" 0],
        some (.AttributeError "str object has no attribute numero"))) :=
  C2_conta_nao_registrada (Banco.mk [] [1])
    [Corrente.mk 0 10 "1" 0, Poupanca.mk 1 50 "2" 0] 0 1
    (Corrente.mk 0 10 "1" 0) (Poupanca.mk 1 50 "2" 0) 5 0 3 rfl rfl rfl rfl

/-! ### C1: ledger invariant over credit/debit sequences -/

/-- An abstract call in a sequence of `creditar` / `debitar` invocations
applied to one account. -/
inductive Ev where
  | cred (v : ℚ)
  | deb (v : ℚ)
deriving DecidableEq, Repr

/-- Running a sequence of `creditar` / `debitar` calls on an account,
keeping the final account state (a failed `debitar` leaves the account
unchanged, as in the source). -/
def Conta.applyEvs (c : Conta) : List Ev → Conta
  | [] => c
  | .cred v :: es => (c.creditar v).applyEvs es
  | .deb v :: es => ((c.debitar v).2).applyEvs es

/-- Sum of the credited amounts in a sequence. -/
def credSum : List Ev → ℚ
  | [] => 0
  | .cred v :: es => v + credSum es
  | .deb _ :: es => credSum es

/-- Sum of the successfully debited amounts along the run of a sequence
from a given starting account (whether each debit succeeds depends on the
state reached at that point). -/
def Conta.debSum (c : Conta) : List Ev → ℚ
  | [] => 0
  | .cred v :: es => (c.creditar v).debSum es
  | .deb v :: es =>
    (if (c.debitar v).1 then v else 0) + ((c.debitar v).2).debSum es

/-- Counterexample to C1 as stated: on a checking account holding `10`, a
single successful overdraft debit of `20` leaves balance `0`, not
`10 + 0 - 20`. -/
theorem C1_contraexemplo_cheque_especial :
    ((Corrente.mk 0 10 "1" 0).applyEvs [.deb 20]).saldo ≠
      (Corrente.mk 0 10 "1" 0).saldo + credSum [.deb 20] -
        (Corrente.mk 0 10 "1" 0).debSum [.deb 20] := by
  norm_num [Conta.applyEvs, credSum, Conta.debSum, Conta.debitar,
    Conta.debitar_com_cheque_especial, Corrente.mk, Conta.mkBase]

/-- C1 (amended): for every account that is not a checking account — so no
successful debit can take the overdraft path, which removes only the
pre-debit balance — the balance after any sequence of `creditar` calls and
(successful or failed) `debitar` calls equals the initial balance plus the
credited amounts minus the successfully debited amounts. -/
theorem C1_saldo_soma_creditos_debitos (c : Conta) (es : List Ev)
    (hk : c.kind ≠ .corrente) :
    (c.applyEvs es).saldo = c.saldo + credSum es - c.debSum es := by
  induction es generalizing c with
  | nil => simp [Conta.applyEvs, credSum, Conta.debSum]
  | cons e es ih =>
    cases e with
    | cred v =>
      have h1 : (c.creditar v).kind ≠ .corrente := by
        simpa [Conta.creditar] using hk
      have h2 := ih (c.creditar v) h1
      simp only [Conta.applyEvs, credSum, Conta.debSum]
      rw [h2]
      simp only [Conta.creditar]
      ring
    | deb v =>
      have h1 : ((c.debitar v).2).kind ≠ .corrente := by
        rw [Conta.debitar_kind]; exact hk
      have h2 := ih ((c.debitar v).2) h1
      by_cases hle : v ≤ c.saldo
      · have hd := Conta.debitar_le_saldo (c := c) hle
        simp only [Conta.applyEvs, credSum, Conta.debSum]
        rw [h2, hd]
        simp only [if_pos]
        ring
      · have hd := Conta.debitar_fail_nao_corrente hk (not_le.mp hle)
        simp only [Conta.applyEvs, credSum, Conta.debSum]
        rw [h2, hd]
        simp only [if_neg]
        ring_nf
        simp [hd]
        ring

/-- Witness for C1 (amended): on a savings account holding `10`, crediting
`5` and then successfully debiting `3` ends at `10 + 5 - 3`. -/
theorem C1_saldo_soma_creditos_debitos_test :
    ((Poupanca.mk 0 10 "1" 0).applyEvs [.cred 5, .deb 3]).saldo =
      (Poupanca.mk 0 10 "1" 0).saldo + credSum [.cred 5, .deb 3] -
        (Poupanca.mk 0 10 "1" 0).debSum [.cred 5, .deb 3] :=
  C1_saldo_soma_creditos_debitos (Poupanca.mk 0 10 "1" 0) [.cred 5, .deb 3]
    (by simp [Poupanca.mk, Conta.mkBase])

/-! ### C6: transfer between two registered accounts -/

/-- Counterexample to C6 as stated: transferring `20` out of a checking
account holding `10` is an amount the debit rules allow (overdraft), yet
the source balance ends at `0`, which is not a decrease by `20`. -/
theorem C6_contraexemplo_cheque_especial :
    ((Banco.mk [] [0, 1]).transferencia
        [Corrente.mk 0 10 "1" 0, Corrente.mk 1 0 "2" 0] 0 1 20 3).2 = none ∧
    (((Banco.mk [] [0, 1]).transferencia
        [Corrente.mk 0 10 "1" 0, Corrente.mk 1 0 "2" 0] 0 1 20 3).1[0]?.map Conta.saldo ≠
      some ((Corrente.mk 0 10 "1" 0).saldo - 20)) := by
  constructor
  · norm_num [Banco.transferencia, Banco.registrada, modifyRef, Conta.debitar,
      Conta.debitar_com_cheque_especial, Conta.creditar, Corrente.mk, Conta.mkBase]
  · norm_num [Banco.transferencia, Banco.registrada, modifyRef, Conta.debitar,
      Conta.debitar_com_cheque_especial, Conta.creditar, Corrente.mk, Conta.mkBase]

/-- C6 (amended): a transfer of `v` between two distinct registered
accounts where the source holds sufficient funds (`v ≤ A.saldo`, so the
debit does not take the overdraft path) raises nothing, decreases A's
balance by `v`, increases B's balance by `v`, and appends exactly one
transfer-debit operation at the end of A's history and exactly one
transfer-credit operation at the end of B's history (the source logs the
debit entry and then the credit entry, after crediting the balance). -/
theorem C6_transferencia_com_fundos (bk : Banco) (σ : Heap) (i j : Nat) (a b : Conta)
    (v : ℚ) (now : ℤ) (hi : σ[i]? = some a) (hj : σ[j]? = some b) (hij : i ≠ j)
    (hri : bk.registrada i = true) (hrj : bk.registrada j = true)
    (hv : v ≤ a.saldo) :
    (bk.transferencia σ i j v now).2 = none ∧
    (bk.transferencia σ i j v now).1[i]? = some { a with
      saldo := a.saldo - v
      operacoes := a.operacoes ++ [Operacao.mk (.str "Transferencia - Debito") v now] } ∧
    (bk.transferencia σ i j v now).1[j]? = some { b with
      saldo := b.saldo + v
      operacoes := b.operacoes ++ [Operacao.mk (.str "Transferencia - Credito") v now] } := by
  have hleni : i < σ.length := (List.getElem?_eq_some_iff.mp hi).1
  have hd := Conta.debitar_le_saldo (c := a) (v := v) hv
  have hA1i : (σ.set i { a with saldo := a.saldo - v })[i]? =
      some { a with saldo := a.saldo - v } :=
    List.getElem?_set_self (by simpa using hleni)
  have hA1j : (σ.set i { a with saldo := a.saldo - v })[j]? = some b := by
    rw [List.getElem?_set_ne hij]; exact hj
  have hA2j : (modifyRef (σ.set i { a with saldo := a.saldo - v }) j
      (fun c => c.creditar v))[j]? = some (b.creditar v) :=
    modifyRef_getElem?_self _ hA1j
  have hA2i : (modifyRef (σ.set i { a with saldo := a.saldo - v }) j
      (fun c => c.creditar v))[i]? = some { a with saldo := a.saldo - v } := by
    rw [modifyRef_getElem?_ne _ (Ne.symm hij)]; exact hA1i
  have hA3i : (modifyRef (modifyRef (σ.set i { a with saldo := a.saldo - v }) j
      (fun c => c.creditar v)) i (fun c =>
        { c with operacoes := c.operacoes ++
          [Operacao.mk (.str "Transferencia - Debito") v now] }))[i]? =
      some { a with
        saldo := a.saldo - v
        operacoes := a.operacoes ++
          [Operacao.mk (.str "Transferencia - Debito") v now] } := by
    rw [modifyRef_getElem?_self _ hA2i]
  have hA3j : (modifyRef (modifyRef (σ.set i { a with saldo := a.saldo - v }) j
      (fun c => c.creditar v)) i (fun c =>
        { c with operacoes := c.operacoes ++
          [Operacao.mk (.str "Transferencia - Debito") v now] }))[j]? =
      some (b.creditar v) := by
    rw [modifyRef_getElem?_ne _ hij]; exact hA2j
  have hA4j : (modifyRef (modifyRef (modifyRef (σ.set i { a with saldo := a.saldo - v }) j
      (fun c => c.creditar v)) i (fun c =>
        { c with operacoes := c.operacoes ++
          [Operacao.mk (.str "Transferencia - Debito") v now] })) j (fun c =>
        { c with operacoes := c.operacoes ++
          [Operacao.mk (.str "Transferencia - Credito") v now] }))[j]? =
      some { b.creditar v with operacoes := (b.creditar v).operacoes ++
        [Operacao.mk (.str "Transferencia - Credito") v now] } :=
    modifyRef_getElem?_self _ hA3j
  have hA4i : (modifyRef (modifyRef (modifyRef (σ.set i { a with saldo := a.saldo - v }) j
      (fun c => c.creditar v)) i (fun c =>
        { c with operacoes := c.operacoes ++
          [Operacao.mk (.str "Transferencia - Debito") v now] })) j (fun c =>
        { c with operacoes := c.operacoes ++
          [Operacao.mk (.str "Transferencia - Credito") v now] }))[i]? =
      some { a with
        saldo := a.saldo - v
        operacoes := a.operacoes ++
          [Operacao.mk (.str "Transferencia - Debito") v now] } := by
    rw [modifyRef_getElem?_ne _ (Ne.symm hij)]; exact hA3i
  unfold Banco.transferencia
  rw [hi, hj]
  refine ⟨?_, ?_, ?_⟩
  · simp [hri, hrj, hd]
  · simp [hri, hrj, hd]
    simpa [Conta.creditar] using hA4i
  · simp [hri, hrj, hd]
    simpa [Conta.creditar] using hA4j

/-- Witness for C6 (amended): transferring `30` between two distinct
registered accounts with sufficient source funds moves the balance and
logs one operation on each side. -/
theorem C6_transferencia_com_fundos_test :
    (((Banco.mk [] [0, 1]).transferencia
        [Corrente.mk 0 100 "1" 0, Poupanca.mk 1 5 "2" 0] 0 1 30 3).2 = none) ∧
    (((Banco.mk [] [0, 1]).transferencia
        [Corrente.mk 0 100 "1" 0, Poupanca.mk 1 5 "2" 0] 0 1 30 3).1[0]? =
      some { Corrente.mk 0 100 "1" 0 with
        saldo := (Corrente.mk 0 100 "1" 0).saldo - 30
        operacoes := (Corrente.mk 0 100 "1" 0).operacoes ++
          [Operacao.mk (.str "Transferencia - Debito") 30 3] }) ∧
    (((Banco.mk [] [0, 1]).transferencia
        [Corrente.mk 0 100 "1" 0, Poupanca.mk 1 5 "2" 0] 0 1 30 3).1[1]? =
      some { Poupanca.mk 1 5 "2" 0 with
        saldo := (Poupanca.mk 1 5 "2" 0).saldo + 30
        operacoes := (Poupanca.mk 1 5 "2" 0).operacoes ++
          [Operacao.mk (.str "Transferencia - Credito") 30 3] }) :=
  C6_transferencia_com_fundos (Banco.mk [] [0, 1])
    [Corrente.mk 0 100 "1" 0, Poupanca.mk 1 5 "2" 0] 0 1
    (Corrente.mk 0 100 "1" 0) (Poupanca.mk 1 5 "2" 0) 30 3 rfl rfl
    (by decide) rfl rfl (by norm_num [Corrente.mk, Conta.mkBase])
